import Mathlib

/-!
Shallow embedding of the real-estate recommendation action
(`actions/actions.py`, class `ActionSearchRealEstate`).

The pipeline embedded here is the body of `run` after the SPARQL fetch:
per-binding scoring (distance bonus, facility count, surrounding count),
stable descending sort by score, truncation to the top 5, and text
rendering, together with the haversine helper `calculate_distance` and the
slot-defaulting of the user's reference coordinates.

Machine reals of the source are modelled by `ℝ`; the strings returned by
the SPARQL endpoint are parsed with a model of Python's `float` on plain
decimal literals.  Scores are Python integers, modelled by `ℤ`.
-/

/-- Whitespace stripping at both ends of a character list, modelling the
stripping Python `float` applies to its string argument. -/
def trimChars (cs : List Char) : List Char :=
  ((cs.dropWhile Char.isWhitespace).reverse.dropWhile Char.isWhitespace).reverse

/-- Fuelled worker for `pySplit`: walks the characters, cutting a token
whenever the separator occurs (leftmost, non-overlapping).  The fuel is
an upper bound on the number of steps; each step consumes at least one
character, so `cs.length` steps always suffice and the fuel-exhausted arm
is unreachable for the fuel the wrapper passes. -/
def splitGo (sep : List Char) : Nat → List Char → List Char →
    List (List Char)
  | _, [], acc => [acc.reverse]
  | 0, cs, acc => [acc.reverse ++ cs]
  | fuel + 1, c :: rest, acc =>
      if (c :: rest).take sep.length = sep then
        acc.reverse :: splitGo sep fuel ((c :: rest).drop sep.length) []
      else splitGo sep fuel rest (c :: acc)

/-- Python `s.split(sep)` for a non-empty separator, as used on the geo,
facilities and surroundings values.  Structurally recursive so that
concrete instances reduce in the kernel; on the empty string it yields
`[""]`, exactly as Python does. -/
def pySplit (s sep : String) : List String :=
  (splitGo sep.data s.data.length s.data []).map String.mk

/-- Value of a list of decimal digit characters, most significant first.
The empty list has value 0 (callers check emptiness separately). -/
def digitsVal (cs : List Char) : Nat :=
  cs.foldl (fun acc c => 10 * acc + (c.toNat - 48)) 0

/-- A parsed decimal number: the value is `mantissa / 10 ^ scale`.  The
unnormalised pair keeps parsing and its proofs purely structural. -/
structure PyFloat where
  mantissa : Int
  scale : Nat
deriving DecidableEq, Repr

/-- The real value a parsed decimal denotes. -/
noncomputable def PyFloat.toReal (x : PyFloat) : ℝ :=
  (x.mantissa : ℝ) / 10 ^ x.scale

/-- Sign prefix of a numeric literal: the sign factor and the remaining
characters. -/
def pySign (cs : List Char) : Int × List Char :=
  match cs with
  | '-' :: t => (-1, t)
  | '+' :: t => (1, t)
  | t => (1, t)

/-- Model of Python `float(s)` on plain decimal literals: optional
surrounding whitespace, an optional sign, then digits with an optional
fractional part ("12", "12.", "12.5", ".5").  Any other text fails, which
in the source raises `ValueError`; failure is modelled as `none`.
Exponent, infinity and NaN forms never occur in the data and are omitted. -/
def pyFloat? (s : String) : Option PyFloat :=
  let cs := trimChars s.data
  let sign := (pySign cs).1
  let body := (pySign cs).2
  let intPart := body.takeWhile (fun c => c ≠ '.')
  let dotPart := body.dropWhile (fun c => c ≠ '.')
  let fracPart := dotPart.drop 1
  if intPart.all Char.isDigit ∧ fracPart.all Char.isDigit ∧
      (intPart ≠ [] ∨ fracPart ≠ []) then
    some ⟨sign * (digitsVal (intPart ++ fracPart) : Int), fracPart.length⟩
  else none

/-- Python `math.atan2 y x`. -/
noncomputable def atan2 (y x : ℝ) : ℝ :=
  if 0 < x then Real.arctan (y / x)
  else if x < 0 ∧ 0 ≤ y then Real.arctan (y / x) + Real.pi
  else if x < 0 ∧ y < 0 then Real.arctan (y / x) - Real.pi
  else if x = 0 ∧ 0 < y then Real.pi / 2
  else if x = 0 ∧ y < 0 then -(Real.pi / 2)
  else 0

/-- Python `math.radians`: degrees to radians. -/
noncomputable def radians (deg : ℝ) : ℝ := deg * Real.pi / 180

/-- The intermediate `a` of `calculate_distance` (haversine term):
`sin(dlat/2)**2 + cos(lat1) * cos(lat2) * sin(dlon/2)**2` after the
degree-to-radian conversion of the four inputs. -/
noncomputable def hav_a (lat1 lon1 lat2 lon2 : ℝ) : ℝ :=
  Real.sin ((radians lat2 - radians lat1) / 2) ^ 2 +
    Real.cos (radians lat1) * Real.cos (radians lat2) *
      Real.sin ((radians lon2 - radians lon1) / 2) ^ 2

/-- `calculate_distance(lat1, lon1, lat2, lon2)` (source lines 13-25):
great-circle distance in km on a sphere of radius `R = 6371`, by the
haversine formula `R * 2 * atan2(sqrt(a), sqrt(1-a))`. -/
noncomputable def calculate_distance (lat1 lon1 lat2 lon2 : ℝ) : ℝ :=
  6371 * (2 * atan2 (Real.sqrt (hav_a lat1 lon1 lat2 lon2))
    (Real.sqrt (1 - hav_a lat1 lon1 lat2 lon2)))

/-- One SPARQL result binding, restricted to the fields the action reads.
Each field is the optional `['value']` of the binding (`none` when the
key is absent from the result row). -/
structure RawRecord where
  project_name : Option String
  type_name : Option String
  geo : Option String
  region_name : Option String
  area_name : Option String
  ward_name : Option String
  all_facilities : Option String
  all_surroundings : Option String
  price : Option String
  rooms : Option String
  size : Option String
deriving DecidableEq, Repr

/-- The `project_info` dictionary the action appends to
`recommendations` (source lines 134-145). -/
structure ProjectInfo where
  project_name : String
  «type» : String
  location : String
  price : String
  rooms : String
  size : String
  score : Int
  reasons : List String
deriving DecidableEq, Repr

/-- Facility reason string (source line 124). -/
def facReason (facility : String) : String := "✨ Có " ++ facility

/-- Surrounding reason string (source line 130). -/
def surReason (surrounding : String) : String := "🏢 Gần " ++ surrounding

/-- Distance reason string (source line 118).  The one-decimal rendering
of the float is modelled by the rounded count of tenth-kilometre units;
no claim depends on the digits of this string. -/
noncomputable def distReason (distance : ℝ) : String :=
  "🚶 Cách nơi làm việc " ++ toString (round (10 * distance)) ++ "e-1km"

/-- The facility items of a record: `result['all_facilities']['value']`
split on `", "` when the binding is present (source line 122), and the
empty item list when it is absent (the `if 'all_facilities' in result`
guard fails and the block contributes nothing). -/
def facItems (r : RawRecord) : List String :=
  match r.all_facilities with
  | some v => pySplit v ", "
  | none => []

/-- The surrounding items of a record, analogous to `facItems`
(source lines 127-130). -/
def surItems (r : RawRecord) : List String :=
  match r.all_surroundings with
  | some v => pySplit v ", "
  | none => []

/-- Number of facility items of a record. -/
def facCount (r : RawRecord) : Nat := (facItems r).length

/-- Number of surrounding items of a record. -/
def surCount (r : RawRecord) : Nat := (surItems r).length

/-- Facility and surrounding scoring plus assembly of the `project_info`
dictionary (source lines 121-145), starting from the score and reasons
produced by the distance step.  Fields default exactly as in
`result.get(key, {}).get('value', default)`. -/
def finishRecord (r : RawRecord) (score0 : Int) (reasons0 : List String) :
    ProjectInfo :=
  let score1 := score0 + (facItems r).length
  let reasons1 := reasons0 ++ (facItems r).map facReason
  let score2 := score1 + (surItems r).length
  let reasons2 := reasons1 ++ (surItems r).map surReason
  ⟨r.project_name.getD "N/A",
   r.type_name.getD "N/A",
   r.ward_name.getD "" ++ ", " ++ r.area_name.getD "" ++ ", " ++
     r.region_name.getD "",
   r.price.getD "N/A",
   r.rooms.getD "N/A",
   r.size.getD "N/A",
   score2,
   reasons2⟩

/-- The distance step of scoring (source lines 106-119, the `try` block):
`none` models the swallowed `ValueError` and its `continue` — the whole
record is abandoned when the geo value has exactly two comma-separated
components and any of the four coordinate strings fails `float()`.
Otherwise the result is the (score, reasons) pair the block produces:
`(1, [reason])` when the distance is at most 5 km, `(0, [])` when the
distance is larger, when the component count is not 2, or when the geo
binding is absent. -/
noncomputable def geoStep (user_lat user_lon : String) (r : RawRecord) :
    Option (Int × List String) :=
  match r.geo with
  | some g =>
      let geo_parts := pySplit g ","
      if geo_parts.length = 2 then
        match pyFloat? user_lat, pyFloat? user_lon,
            pyFloat? geo_parts[0]!, pyFloat? geo_parts[1]! with
        | some ulat, some ulon, some lat, some lon =>
            let distance := calculate_distance ulat.toReal ulon.toReal
              lat.toReal lon.toReal
            if distance ≤ 5 then some (1, [distReason distance])
            else some (0, [])
        | _, _, _, _ => none
      else some (0, [])
  | none => some (0, [])

/-- Processing of one result binding (source lines 101-145): the distance
step followed by facility and surrounding scoring and dictionary
assembly; `none` when the record is dropped by the `continue`. -/
noncomputable def processRecord (user_lat user_lon : String)
    (r : RawRecord) : Option ProjectInfo :=
  (geoStep user_lat user_lon r).map (fun sr => finishRecord r sr.1 sr.2)

/-- The loop over `results["results"]["bindings"]` (source lines 101-145):
records are processed in order and the dropped ones leave no entry. -/
noncomputable def processAll (user_lat user_lon : String)
    (bindings : List RawRecord) : List ProjectInfo :=
  bindings.filterMap (processRecord user_lat user_lon)

/-- Comparison used for ranking: `a` may precede `b` when its score is at
least `b`'s (descending order). -/
def scoreDesc (a b : ProjectInfo) : Bool := decide (b.score ≤ a.score)

/-- `recommendations.sort(key=lambda x: x['score'], reverse=True)`
(source line 148): a stable descending sort by score, modelled by the
stable `List.mergeSort`. -/
def rankRecommendations (recommendations : List ProjectInfo) :
    List ProjectInfo :=
  recommendations.mergeSort scoreDesc

/-- Rendering of one recommendation inside the response loop
(source lines 152-161). -/
def renderEntry (p : ProjectInfo) : String :=
  "🏠 " ++ p.project_name ++ " (" ++ p.«type» ++ ")\n" ++
  "📍 Vị trí: " ++ p.location ++ "\n" ++
  "💰 Giá: " ++ p.price ++ " VND\n" ++
  "🛏️ Số phòng ngủ: " ++ p.rooms ++ "\n" ++
  "📐 Diện tích: " ++ p.size ++ "m²\n" ++
  "📊 Điểm đánh giá: " ++ toString p.score ++ "\n" ++
  "📝 Lý do đề xuất:\n" ++
  String.join (p.reasons.map (fun reason => "  " ++ reason ++ "\n")) ++
  "\n"

/-- The fixed response header (source line 151). -/
def header : String := "🏘️ Danh sách bất động sản được đề xuất:\n\n"

/-- The fixed no-results notice (source line 165). -/
def noResultsMsg : String :=
  "❌ Không tìm thấy bất động sản nào phù hợp với yêu cầu của bạn."

/-- Response construction (source lines 151-165): the header followed by
the first five ranked entries, replaced by the no-results notice when the
recommendation list is empty. -/
def buildResponse (recommendations : List ProjectInfo) : String :=
  let body := (recommendations.take 5).foldl
    (fun acc p => acc ++ renderEntry p) header
  if recommendations.isEmpty then noResultsMsg else body

/-- Python `slot or default` (source lines 33-34): `or` falls back both
on `None` and on the empty string, which are the falsy slot values. -/
def pyOr (slot : Option String) (fallback : String) : String :=
  match slot with
  | none => fallback
  | some s => if s = "" then fallback else s

/-- The reference coordinates used for this request
(source lines 33-34). -/
def referencePoint (work_latitude work_longitude : Option String) :
    String × String :=
  (pyOr work_latitude "10.848", pyOr work_longitude "106.787")

/-- The action body after a successful fetch (source lines 33-167):
slot defaulting, per-binding scoring, ranking, and response text. -/
noncomputable def run (work_latitude work_longitude : Option String)
    (bindings : List RawRecord) : String :=
  let user_lat := (referencePoint work_latitude work_longitude).1
  let user_lon := (referencePoint work_latitude work_longitude).2
  buildResponse (rankRecommendations (processAll user_lat user_lon bindings))

/-- The spec's distance indicator: 1 exactly when the record's geo field
parses to a coordinate within 5 km of the reference point, else 0. -/
noncomputable def withinBonus (user_lat user_lon : String)
    (r : RawRecord) : Int :=
  match r.geo with
  | some g =>
      let geo_parts := pySplit g ","
      if geo_parts.length = 2 then
        match pyFloat? user_lat, pyFloat? user_lon,
            pyFloat? geo_parts[0]!, pyFloat? geo_parts[1]! with
        | some ulat, some ulon, some lat, some lon =>
            if calculate_distance ulat.toReal ulon.toReal
              lat.toReal lon.toReal ≤ 5 then 1 else 0
        | _, _, _, _ => 0
      else 0
  | none => 0

/-- A record with the three display-only fields replaced: used to state
that price, rooms and size never influence the score. -/
def withDisplay (r : RawRecord) (pr rm sz : Option String) : RawRecord :=
  ⟨r.project_name, r.type_name, r.geo, r.region_name, r.area_name,
   r.ward_name, r.all_facilities, r.all_surroundings, pr, rm, sz⟩

/-- Concrete records and lists used by the closed instances below. -/
def rW : RawRecord :=
  ⟨some "Sunrise City", some "Căn hộ", none, none, none, none,
   some "Pool, Gym", some "Park", none, none, none⟩

/-- The processed form of `rW`. -/
def pW : ProjectInfo := finishRecord rW 0 []

/-- A record whose geo value has two components that are not numeric. -/
def rBadGeo : RawRecord :=
  ⟨some "P1", none, some "abc,def", none, none, none,
   some "Pool", none, none, none, none⟩

/-- A record whose geo value has a single component. -/
def rOneComp : RawRecord :=
  ⟨some "P2", none, some "10.85", none, none, none,
   none, none, none, none, none⟩

/-- A record whose coordinate is very far from the reference (0, 0). -/
def rFar : RawRecord :=
  ⟨some "P3", none, some "0,180", none, none, none,
   none, none, none, none, none⟩

/-- A record with every binding absent. -/
def rNone : RawRecord :=
  ⟨none, none, none, none, none, none, none, none, none, none, none⟩

/-- A record whose facilities binding is present but empty. -/
def rEmptyFac : RawRecord :=
  ⟨none, none, none, none, none, none, some "", none, none, none, none⟩

/-- Six identically scored candidates. -/
def lW : List ProjectInfo := List.replicate 6 pW

theorem finishRecord_score (r : RawRecord) (s0 : Int) (rs0 : List String) :
    (finishRecord r s0 rs0).score = s0 + facCount r + surCount r := rfl

theorem finishRecord_reasons (r : RawRecord) (s0 : Int) (rs0 : List String) :
    (finishRecord r s0 rs0).reasons =
      rs0 ++ (facItems r).map facReason ++ (surItems r).map surReason := rfl

theorem geoStep_some {u v : String} {r : RawRecord} {sr : Int × List String}
    (h : geoStep u v r = some sr) :
    (sr = (0, []) ∨ ∃ d : ℝ, sr = (1, [distReason d])) ∧
      sr.1 = withinBonus u v r := by
  obtain ⟨pn, tn, geo, rn, an, wn, af, asur, pr, rm, sz⟩ := r
  cases geo with
  | none =>
      simp only [geoStep, Option.some.injEq] at h
      subst h
      simp [withinBonus]
  | some g =>
      simp only [geoStep] at h
      simp only [withinBonus]
      split at h
      · rename_i h2
        rw [if_pos h2]
        split at h
        · rename_i ulat ulon lat lon hu hv ha hb
          split at h
          · rename_i hle
            simp only [Option.some.injEq] at h
            subst h
            refine ⟨Or.inr ⟨_, rfl⟩, ?_⟩
            simp only [if_pos hle]
          · rename_i hgt
            simp only [Option.some.injEq] at h
            subst h
            refine ⟨Or.inl rfl, ?_⟩
            simp only [if_neg hgt]
        · simp at h
      · rename_i h2
        rw [if_neg h2]
        simp only [Option.some.injEq] at h
        subst h
        exact ⟨Or.inl rfl, rfl⟩

theorem processRecord_some {u v : String} {r : RawRecord} {p : ProjectInfo}
    (h : processRecord u v r = some p) :
    ∃ sr, geoStep u v r = some sr ∧ p = finishRecord r sr.1 sr.2 := by
  unfold processRecord at h
  cases hs : geoStep u v r with
  | none => rw [hs] at h; simp at h
  | some sr =>
      rw [hs] at h
      simp only [Option.map_some', Option.some.injEq] at h
      exact ⟨sr, rfl, h.symm⟩

theorem processRecord_score_len {u v : String} {r : RawRecord}
    {p : ProjectInfo} (h : processRecord u v r = some p) :
    p.score = p.reasons.length := by
  obtain ⟨sr, hs, hp⟩ := processRecord_some h
  obtain ⟨hcases, -⟩ := geoStep_some hs
  subst hp
  rw [finishRecord_score, finishRecord_reasons]
  rcases hcases with h0 | ⟨d, h1⟩
  · subst h0
    simp [facCount, surCount]
  · subst h1
    simp [facCount, surCount]
    omega

theorem scoreDesc_trans (a b c : ProjectInfo) :
    scoreDesc a b → scoreDesc b c → scoreDesc a c := by
  simp only [scoreDesc, decide_eq_true_eq]
  omega

theorem scoreDesc_total (a b : ProjectInfo) :
    scoreDesc a b || scoreDesc b a := by
  simp only [scoreDesc, Bool.or_eq_true, decide_eq_true_eq]
  omega

theorem hav_a_symm (lat1 lon1 lat2 lon2 : ℝ) :
    hav_a lat1 lon1 lat2 lon2 = hav_a lat2 lon2 lat1 lon1 := by
  unfold hav_a
  have h : ∀ x y : ℝ,
      Real.sin ((x - y) / 2) ^ 2 = Real.sin ((y - x) / 2) ^ 2 := by
    intro x y
    rw [show (x - y) / 2 = -((y - x) / 2) by ring, Real.sin_neg, neg_sq]
  rw [h (radians lat2) (radians lat1), h (radians lon2) (radians lon1)]
  ring

theorem hav_a_self (lat lon : ℝ) : hav_a lat lon lat lon = 0 := by
  unfold hav_a
  simp

theorem atan2_zero_one : atan2 0 1 = 0 := by
  unfold atan2
  norm_num [Real.arctan_zero]

/-- C7: the distance function is symmetric — for every pair of
coordinates `a` and `b`, `calculate_distance a b = calculate_distance b a`
— and for every coordinate `a`, `calculate_distance a a = 0`.  Over the
real-number embedding it is a total pure function of its inputs, so it
yields a (finite) real for all inputs. -/
theorem calculate_distance_symm_self :
    (∀ lat1 lon1 lat2 lon2 : ℝ,
      calculate_distance lat1 lon1 lat2 lon2 =
        calculate_distance lat2 lon2 lat1 lon1) ∧
    (∀ lat lon : ℝ, calculate_distance lat lon lat lon = 0) := by
  constructor
  · intro lat1 lon1 lat2 lon2
    unfold calculate_distance
    rw [hav_a_symm]
  · intro lat lon
    unfold calculate_distance
    rw [hav_a_self]
    norm_num [Real.sqrt_zero, Real.sqrt_one, atan2_zero_one]

/-- C6: with zero input records the produced output is exactly the fixed
no-results notice, and that notice is not of the header-plus-entries
shape (it extends no string that starts with the header). -/
theorem empty_bindings_no_results (wlat wlon : Option String) :
    run wlat wlon [] = noResultsMsg ∧
    ∀ s : String, noResultsMsg ≠ header ++ s := by
  constructor
  · simp [run, processAll, rankRecommendations, buildResponse]
  · intro s hcontra
    have hd : noResultsMsg.data = header.data ++ s.data := by
      rw [← String.data_append]
      exact congrArg String.data hcontra
    have h1 : noResultsMsg.data.take 1 = (header.data ++ s.data).take 1 :=
      congrArg (List.take 1) hd
    rw [List.take_append_eq_append_take] at h1
    have h2 : 1 - header.data.length = 0 := by decide
    rw [h2] at h1
    simp only [List.take_zero, List.append_nil] at h1
    exact absurd h1 (by decide)

/-- C8 counterexample: with the latitude slot missing and the longitude
slot supplied as "106.0", the longitude actually used is the supplied
"106.0"; the reference point is not the full default pair
("10.848", "106.787") that the claim requires for this input. -/
theorem reference_default_pair_counterexample :
    referencePoint none (some "106.0") = ("10.848", "106.0") ∧
    referencePoint none (some "106.0") ≠ ("10.848", "106.787") :=
  ⟨rfl, by decide⟩

/-- C8 amended: each reference coordinate defaults independently — the
latitude to "10.848" and the longitude to "106.787" when the respective
slot is missing (or empty, which Python `or` also treats as falsy) — and
supplied non-empty values are used unchanged. -/
theorem reference_default_componentwise :
    (∀ a b : String, a ≠ "" → b ≠ "" →
      referencePoint (some a) (some b) = (a, b)) ∧
    (∀ b : Option String, (referencePoint none b).1 = "10.848") ∧
    (∀ a : Option String, (referencePoint a none).2 = "106.787") ∧
    referencePoint none none = ("10.848", "106.787") := by
  refine ⟨?_, ?_, ?_, rfl⟩
  · intro a b ha hb
    simp [referencePoint, pyOr, ha, hb]
  · intro b; rfl
  · intro a; rfl

theorem reference_default_componentwise_witness :
    referencePoint (some "10.9") (some "106.5") = ("10.9", "106.5") :=
  reference_default_componentwise.1 "10.9" "106.5" (by decide) (by decide)

/-- C2 (code bug): a record whose geo value has two comma-separated
non-numeric components is dropped whole by the caught ValueError and its
`continue` — it is neither scored nor presented although its facilities
binding is present — whereas a wrong component count keeps the record. -/
theorem malformed_geo_drops_record :
    processRecord "10.848" "106.787" rBadGeo = none ∧
    processAll "10.848" "106.787" [rBadGeo] = [] ∧
    facItems rBadGeo = ["Pool"] ∧
    processRecord "10.848" "106.787" rOneComp =
      some (finishRecord rOneComp 0 []) :=
  ⟨rfl, rfl, by decide, rfl⟩

/-- C1: for every candidate record that reaches scoring (is not dropped
by the swallowed geo error), the computed score is non-negative and
equals exactly the within-5-km indicator plus the number of facility
items plus the number of surrounding items; the price, rooms and size
bindings never affect the score. -/
theorem score_formula (u v : String) (r : RawRecord) (p : ProjectInfo)
    (h : processRecord u v r = some p) :
    0 ≤ p.score ∧
    p.score = withinBonus u v r + facCount r + surCount r ∧
    ∀ pr rm sz : Option String,
      (processRecord u v (withDisplay r pr rm sz)).map ProjectInfo.score =
        some p.score := by
  obtain ⟨sr, hs, hp⟩ := processRecord_some h
  obtain ⟨hcases, hbonus⟩ := geoStep_some hs
  subst hp
  have h01 : sr.1 = 0 ∨ sr.1 = 1 := by
    rcases hcases with h0 | ⟨d, h1⟩
    · exact Or.inl (by rw [h0])
    · exact Or.inr (by rw [h1])
  refine ⟨?_, ?_, ?_⟩
  · rw [finishRecord_score]
    rcases h01 with h0 | h0 <;> omega
  · rw [finishRecord_score, hbonus]
  · intro pr rm sz
    have e1 : geoStep u v (withDisplay r pr rm sz) = geoStep u v r := rfl
    unfold processRecord
    rw [e1, hs]
    simp only [Option.map_some']
    rfl

/-- Closed instance of the C1 theorem at the record `rW`. -/
theorem score_formula_witness :
    0 ≤ pW.score ∧
    pW.score =
      withinBonus "10.848" "106.787" rW + facCount rW + surCount rW ∧
    ∀ pr rm sz : Option String,
      (processRecord "10.848" "106.787" (withDisplay rW pr rm sz)).map
        ProjectInfo.score = some pW.score :=
  score_formula "10.848" "106.787" rW pW rfl

/-- C9: every candidate of the presented output carries a score equal to
the length of its reason list (each +1 appends exactly one reason), and
the equality survives ranking and truncation. -/
theorem score_matches_reasons (u v : String) (rs : List RawRecord)
    (p : ProjectInfo)
    (h : p ∈ (rankRecommendations (processAll u v rs)).take 5) :
    p.score = p.reasons.length := by
  have h1 : p ∈ rankRecommendations (processAll u v rs) :=
    List.mem_of_mem_take h
  rw [rankRecommendations, List.mem_mergeSort, processAll] at h1
  obtain ⟨r, hr, hpr⟩ := List.mem_filterMap.mp h1
  exact processRecord_score_len hpr

/-- Closed instance of the C9 theorem at the singleton batch `[rW]`. -/
theorem score_matches_reasons_witness : pW.score = pW.reasons.length := by
  have e : processAll "10.848" "106.787" [rW] = [pW] := rfl
  refine score_matches_reasons "10.848" "106.787" [rW] pW ?_
  rw [rankRecommendations, e, List.mergeSort_singleton]
  simp

/-- C10: an aggregated facilities (or surroundings) binding present with
the empty-string value splits into the one-element list containing the
empty string, adds 1 to the score (per such field) and appends one
reason with an empty item name; it is not treated as absent or as an
empty list. -/
theorem empty_string_counts_one :
    pySplit "" ", " = [""] ∧
    (∀ r : RawRecord, r.all_facilities = some "" →
      facItems r = [""] ∧ facCount r = 1) ∧
    (∀ r : RawRecord, r.all_surroundings = some "" →
      surItems r = [""] ∧ surCount r = 1) ∧
    (∀ (u v : String) (r : RawRecord) (p : ProjectInfo),
      r.all_facilities = some "" → processRecord u v r = some p →
      facReason "" ∈ p.reasons ∧
      p.score = withinBonus u v r + 1 + surCount r) := by
  have hfac : ∀ r : RawRecord, r.all_facilities = some "" →
      facItems r = [""] := by
    intro r hf
    unfold facItems
    rw [hf]
    decide
  refine ⟨by decide, ?_, ?_, ?_⟩
  · intro r hf
    refine ⟨hfac r hf, ?_⟩
    rw [facCount, hfac r hf]
    rfl
  · intro r hsur
    have h1 : surItems r = [""] := by
      unfold surItems
      rw [hsur]
      decide
    exact ⟨h1, by rw [surCount, h1]; rfl⟩
  · intro u v r p hf h
    obtain ⟨sr, hs, hp⟩ := processRecord_some h
    obtain ⟨hcases, hbonus⟩ := geoStep_some hs
    subst hp
    constructor
    · rw [finishRecord_reasons, hfac r hf]
      simp
    · rw [finishRecord_score, ← hbonus]
      simp [facCount, hfac r hf]

/-- Closed instance of the C10 theorem at the record `rEmptyFac`. -/
theorem empty_string_counts_one_witness :
    facReason "" ∈ (finishRecord rEmptyFac 0 []).reasons ∧
    (finishRecord rEmptyFac 0 []).score =
      withinBonus "10.848" "106.787" rEmptyFac + 1 + surCount rEmptyFac :=
  empty_string_counts_one.2.2.2 "10.848" "106.787" rEmptyFac
    (finishRecord rEmptyFac 0 []) rfl rfl

/-- C3: ranking is a stable sort by score descending: the ranked list is
a permutation of the input, sorted by non-increasing score, and for every
score the candidates carrying it appear in exactly their input order. -/
theorem ranking_stable (l : List ProjectInfo) (s : Int) :
    List.Perm (rankRecommendations l) l ∧
    (rankRecommendations l).Pairwise (fun a b => b.score ≤ a.score) ∧
    (rankRecommendations l).filter (fun p => p.score == s) =
      l.filter (fun p => p.score == s) := by
  refine ⟨List.mergeSort_perm l scoreDesc, ?_, ?_⟩
  · have hp := List.sorted_mergeSort scoreDesc_trans scoreDesc_total l
    exact hp.imp (fun hab => by simpa [scoreDesc] using hab)
  · have hpair : (l.filter (fun p => p.score == s)).Pairwise
        (fun a b => scoreDesc a b) := by
      apply List.pairwise_of_forall_mem_list
      intro a ha b hb
      have ha2 := (List.mem_filter.mp ha).2
      have hb2 := (List.mem_filter.mp hb).2
      simp only [beq_iff_eq] at ha2 hb2
      simp [scoreDesc, ha2, hb2]
    have hsub : List.Sublist (l.filter (fun p => p.score == s)) l :=
      List.filter_sublist l
    have hst :=
      List.sublist_mergeSort scoreDesc_trans scoreDesc_total hpair hsub
    have hfil := hst.filter (fun p => p.score == s)
    rw [List.filter_filter] at hfil
    simp only [Bool.and_self] at hfil
    have hperm :=
      (List.mergeSort_perm l scoreDesc).filter (fun p => p.score == s)
    rw [rankRecommendations]
    exact (hfil.eq_of_length hperm.length_eq.symm).symm

/-- C4: the presented output never contains more than five entries, and
for a non-empty recommendation list its body is built from exactly the
first five elements of the ranked list. -/
theorem presentation_top5 (l : List ProjectInfo) :
    ((rankRecommendations l).take 5).length ≤ 5 ∧
    (rankRecommendations l ≠ [] →
      buildResponse (rankRecommendations l) =
        ((rankRecommendations l).take 5).foldl
          (fun acc p => acc ++ renderEntry p) header) := by
  constructor
  · simp [List.length_take]
  · intro hne
    unfold buildResponse
    have he : (rankRecommendations l).isEmpty = false := by
      simpa [List.isEmpty_iff] using hne
    rw [he]
    simp

/-- Closed instance of the C4 theorem at a six-element list. -/
theorem presentation_top5_witness :
    ((rankRecommendations lW).take 5).length ≤ 5 ∧
    buildResponse (rankRecommendations lW) =
      ((rankRecommendations lW).take 5).foldl
        (fun acc p => acc ++ renderEntry p) header := by
  refine ⟨(presentation_top5 lW).1, (presentation_top5 lW).2 ?_⟩
  intro hnil
  have hl := (List.mergeSort_perm lW scoreDesc).length_eq
  rw [rankRecommendations] at hnil
  rw [hnil] at hl
  simp [lW] at hl

theorem atan2_one_zero : atan2 1 0 = Real.pi / 2 := by
  unfold atan2
  norm_num

theorem calculate_distance_antipodal :
    calculate_distance 0 0 0 180 = 6371 * Real.pi := by
  have hr0 : radians 0 = 0 := by unfold radians; ring
  have hr180 : radians 180 = Real.pi := by unfold radians; ring
  have ha : hav_a 0 0 0 180 = 1 := by
    unfold hav_a
    rw [hr0, hr180]
    simp [Real.sin_pi_div_two]
  unfold calculate_distance
  rw [ha]
  norm_num [Real.sqrt_one, atan2_one_zero]
  ring

theorem far_distance_gt_five :
    5 < calculate_distance (PyFloat.mk 0 0).toReal (PyFloat.mk 0 0).toReal
      (PyFloat.mk 0 0).toReal (PyFloat.mk 180 0).toReal := by
  have h0 : (PyFloat.mk 0 0).toReal = 0 := by simp [PyFloat.toReal]
  have h180 : (PyFloat.mk 180 0).toReal = 180 := by simp [PyFloat.toReal]
  rw [h0, h180, calculate_distance_antipodal]
  nlinarith [Real.pi_gt_three]

/-- C5: scoring never excludes a candidate: a record whose parsed
coordinate lies farther than 5 km gets no distance point and no distance
reason yet stays in the ranked list, and a record with no coordinate, no
facilities and no surroundings scores 0 with an empty reason list and
stays in the ranked list too. -/
theorem no_exclusion_by_score :
    (∀ (u v : String) (r : RawRecord) (g : String) (a b c d : PyFloat),
      r.geo = some g → (pySplit g ",").length = 2 →
      pyFloat? u = some a → pyFloat? v = some b →
      pyFloat? (pySplit g ",")[0]! = some c →
      pyFloat? (pySplit g ",")[1]! = some d →
      5 < calculate_distance a.toReal b.toReal c.toReal d.toReal →
      processRecord u v r = some (finishRecord r 0 []) ∧
      ∀ l1 l2 : List RawRecord,
        finishRecord r 0 [] ∈
          rankRecommendations (processAll u v (l1 ++ r :: l2))) ∧
    (∀ (u v : String) (r : RawRecord),
      r.geo = none → r.all_facilities = none → r.all_surroundings = none →
      processRecord u v r = some (finishRecord r 0 []) ∧
      (finishRecord r 0 []).score = 0 ∧
      (finishRecord r 0 []).reasons = [] ∧
      ∀ l1 l2 : List RawRecord,
        finishRecord r 0 [] ∈
          rankRecommendations (processAll u v (l1 ++ r :: l2))) := by
  have hmem : ∀ (u v : String) (r : RawRecord) (q : ProjectInfo),
      processRecord u v r = some q →
      ∀ l1 l2 : List RawRecord,
        q ∈ rankRecommendations (processAll u v (l1 ++ r :: l2)) := by
    intro u v r q hq l1 l2
    rw [rankRecommendations, List.mem_mergeSort, processAll]
    exact List.mem_filterMap.mpr ⟨r, by simp, hq⟩
  constructor
  · intro u v r g a b c d hg h2 ha hb hc hd hfar
    obtain ⟨pn, tn, geo, rn, an, wn, af, asur, pr, rm, sz⟩ := r
    dsimp only at hg
    subst hg
    have hstep :
        geoStep u v ⟨pn, tn, some g, rn, an, wn, af, asur, pr, rm, sz⟩ =
          some (0, []) := by
      simp only [geoStep]
      rw [if_pos h2]
      simp only [ha, hb, hc, hd]
      rw [if_neg (not_le.mpr hfar)]
    have hproc :
        processRecord u v ⟨pn, tn, some g, rn, an, wn, af, asur, pr, rm, sz⟩ =
          some (finishRecord ⟨pn, tn, some g, rn, an, wn, af, asur,
            pr, rm, sz⟩ 0 []) := by
      unfold processRecord
      rw [hstep]
      rfl
    exact ⟨hproc, fun l1 l2 => hmem _ _ _ _ hproc l1 l2⟩
  · intro u v r hg hf hsur
    have hstep : geoStep u v r = some (0, []) := by
      unfold geoStep
      rw [hg]
    have hproc : processRecord u v r = some (finishRecord r 0 []) := by
      unfold processRecord
      rw [hstep]
      rfl
    refine ⟨hproc, ?_, ?_, fun l1 l2 => hmem _ _ _ _ hproc l1 l2⟩
    · rw [finishRecord_score]
      simp [facCount, surCount, facItems, surItems, hf, hsur]
    · rw [finishRecord_reasons]
      simp [facItems, surItems, hf, hsur]

/-- Closed instance of the C5 theorem at the far record `rFar` and the
all-absent record `rNone`. -/
theorem no_exclusion_by_score_witness :
    (processRecord "0" "0" rFar = some (finishRecord rFar 0 []) ∧
      finishRecord rFar 0 [] ∈
        rankRecommendations (processAll "0" "0" ([] ++ rFar :: []))) ∧
    (processRecord "0" "0" rNone = some (finishRecord rNone 0 []) ∧
      (finishRecord rNone 0 []).score = 0 ∧
      (finishRecord rNone 0 []).reasons = [] ∧
      finishRecord rNone 0 [] ∈
        rankRecommendations (processAll "0" "0" ([] ++ rNone :: []))) := by
  constructor
  · have h := no_exclusion_by_score.1 "0" "0" rFar "0,180"
      ⟨0, 0⟩ ⟨0, 0⟩ ⟨0, 0⟩ ⟨180, 0⟩ rfl (by decide) (by decide) (by decide)
      (by decide) (by decide) far_distance_gt_five
    exact ⟨h.1, h.2 [] []⟩
  · have h := no_exclusion_by_score.2 "0" "0" rNone rfl rfl rfl
    exact ⟨h.1, h.2.1, h.2.2.1, h.2.2.2 [] []⟩
